import Mathlib

/-!
A verification development for the Artix7 SerDes backend of `bucatini`
(`bucatini/backends/artix7.py`).  The nMigen hardware description is shallowly
embedded: every synchronous process becomes an explicit step function on a
state type, every combinational assignment becomes a pure function of the
current state and inputs.  Python floats only ever hold values obtained from
products of small integers and divisions by 1 or 2 powers here, so they are
modelled exactly by rationals.
-/

namespace Bucatini

/-- The `RateConfig` dictionary returned by `GTPQuadPLL.compute_config`
(`artix7.py` lines 482-485).  `n1`, `n2`, `m`, `d` are Python ints;
`vco_freq`, `clkin`, `linerate` are Python floats, modelled as rationals. -/
structure RateConfig where
  n1 : Nat
  n2 : Nat
  m : Nat
  d : Nat
  vco_freq : ℚ
  clkin : ℚ
  linerate : ℚ
deriving Repr, DecidableEq

/-- Embedding of `GTPQuadPLL.compute_config` (`artix7.py` lines 472-487).  The nested
`for` loops with early `return` are translated as nested `List.findSome?`;
the final `raise ValueError` becomes `none`. -/
def compute_config (refclk_freq linerate : ℚ) : Option RateConfig :=
  [4, 5].findSome? fun (n1 : Nat) =>
    [1, 2, 3, 4, 5].findSome? fun (n2 : Nat) =>
      [1, 2].findSome? fun (m : Nat) =>
        let vco_freq : ℚ := refclk_freq * ((n1 : ℚ) * (n2 : ℚ)) / (m : ℚ)
        if 1.6e9 ≤ vco_freq ∧ vco_freq ≤ 3.3e9 then
          [1, 2, 4, 8, 16].findSome? fun (d : Nat) =>
            let current_linerate : ℚ := vco_freq * 2 / (d : ℚ)
            if current_linerate = linerate then
              some { n1 := n1, n2 := n2, m := m, d := d,
                     vco_freq := vco_freq, clkin := refclk_freq,
                     linerate := linerate }
            else none
        else none

/-- The spec's search grid `n1∈{4,5} × n2∈{1..5} × m∈{1,2} × d∈{1,2,4,8,16}`
in the spec's fixed nested order (n1 ascending, then n2, then m, then d). -/
def lrGrid : List (Nat × Nat × Nat × Nat) :=
  [4, 5].flatMap fun n1 =>
    [1, 2, 3, 4, 5].flatMap fun n2 =>
      [1, 2].flatMap fun m =>
        [1, 2, 4, 8, 16].map fun d => (n1, n2, m, d)

/-- The VCO frequency a grid point yields: `refclk_freq*(n1*n2)/m`. -/
def vcoOf (refclk_freq : ℚ) (t : Nat × Nat × Nat × Nat) : ℚ :=
  refclk_freq * ((t.1 : ℚ) * (t.2.1 : ℚ)) / (t.2.2.1 : ℚ)

/-- Both constraints of the spec at one grid point: the VCO frequency lies in
`[1.6e9, 3.3e9]` and the derived linerate `vco*2/d` equals the request
exactly. -/
def okConfig (refclk_freq linerate : ℚ) (t : Nat × Nat × Nat × Nat) : Bool :=
  decide (1.6e9 ≤ vcoOf refclk_freq t) && decide (vcoOf refclk_freq t ≤ 3.3e9)
    && decide (vcoOf refclk_freq t * 2 / (t.2.2.2 : ℚ) = linerate)

/-- Building a `RateConfig` from a satisfying grid point, as the spec words
it. -/
def mkConfig (refclk_freq linerate : ℚ) (t : Nat × Nat × Nat × Nat) :
    RateConfig :=
  { n1 := t.1, n2 := t.2.1, m := t.2.2.1, d := t.2.2.2,
    vco_freq := vcoOf refclk_freq t, clkin := refclk_freq,
    linerate := linerate }

/-- The spec's description of the solver: the first grid point (in the fixed
nested order) satisfying both constraints, made into a `RateConfig`. -/
def specSolve (refclk_freq linerate : ℚ) : Option RateConfig :=
  (lrGrid.find? (okConfig refclk_freq linerate)).map
    (mkConfig refclk_freq linerate)

theorem findSome?_congr {α β : Type} {f g : α → Option β} :
    ∀ {l : List α}, (∀ a ∈ l, f a = g a) → l.findSome? f = l.findSome? g := by
  intro l
  induction l with
  | nil => intro _; rfl
  | cons a t ih =>
    intro h
    simp only [List.findSome?_cons]
    rw [h a (List.mem_cons_self a t)]
    cases g a with
    | none => exact ih fun x hx => h x (List.mem_cons_of_mem a hx)
    | some b => rfl

theorem option_map_find? {α β : Type} (p : α → Bool) (g : α → β) :
    ∀ l : List α,
      (l.find? p).map g
        = l.findSome? fun a => if p a then some (g a) else none := by
  intro l
  induction l with
  | nil => rfl
  | cons a t ih =>
    by_cases h : p a <;>
      simp [List.find?_cons, h, List.findSome?_cons, ih]

/-- The code's solver coincides with the spec's description: it returns
(the `RateConfig` of) the first grid point, in the spec's fixed nested
order, that satisfies both the VCO-range constraint and the exact-linerate
constraint. -/
theorem compute_config_eq_specSolve (r l : ℚ) :
    compute_config r l = specSolve r l := by
  unfold compute_config specSolve lrGrid
  simp only [List.find?_flatMap, List.find?_map, List.map_findSome?,
    Option.map_map, Function.comp_def, option_map_find?]
  apply findSome?_congr; intro n1 _
  apply findSome?_congr; intro n2 _
  apply findSome?_congr; intro m _
  by_cases hr : 1.6e9 ≤ r * ((n1 : ℚ) * (n2 : ℚ)) / (m : ℚ)
      ∧ r * ((n1 : ℚ) * (n2 : ℚ)) / (m : ℚ) ≤ 3.3e9
  · rw [if_pos hr]
    apply findSome?_congr; intro d _
    have hok : okConfig r l (n1, n2, m, d)
        = decide (r * ((n1 : ℚ) * (n2 : ℚ)) / (m : ℚ) * 2 / (d : ℚ) = l) := by
      simp [okConfig, vcoOf, hr.1, hr.2]
    rw [hok]
    by_cases he : r * ((n1 : ℚ) * (n2 : ℚ)) / (m : ℚ) * 2 / (d : ℚ) = l
    · simp only [he, decide_True, if_pos]
      rfl
    · simp [he]
  · rw [if_neg hr]
    symm
    rw [List.findSome?_eq_none_iff]
    intro t _
    have hok : okConfig r l (n1, n2, m, t) = false := by
      rcases not_and_or.mp hr with h1 | h1 <;> simp [okConfig, vcoOf, h1]
    simp [hok]

/-- C1: whenever `compute_config` returns a result, that `RateConfig`
satisfies `1.6e9 ≤ vco_freq ≤ 3.3e9`, `vco_freq = refclk_freq*(n1*n2)/m`,
and `vco_freq*2/d = linerate` exactly, and its `(n1, n2, m, d)` tuple is the
first grid point, in the fixed nested order `n1` asc, `n2` asc, `m` asc,
`d` asc (the order of `lrGrid`, searched first-to-last by `List.find?`),
satisfying both constraints. -/
theorem compute_config_first_valid (r l : ℚ) (cfg : RateConfig)
    (h : compute_config r l = some cfg) :
    (1.6e9 ≤ cfg.vco_freq ∧ cfg.vco_freq ≤ 3.3e9) ∧
    cfg.vco_freq = r * ((cfg.n1 : ℚ) * (cfg.n2 : ℚ)) / (cfg.m : ℚ) ∧
    cfg.vco_freq * 2 / (cfg.d : ℚ) = l ∧
    lrGrid.find? (okConfig r l) = some (cfg.n1, cfg.n2, cfg.m, cfg.d) := by
  rw [compute_config_eq_specSolve] at h
  unfold specSolve at h
  rcases Option.map_eq_some'.mp h with ⟨t, hfind, hmk⟩
  have hok : okConfig r l t = true := List.find?_some hfind
  have h1 : (1.6e9 ≤ vcoOf r t ∧ vcoOf r t ≤ 3.3e9)
      ∧ vcoOf r t * 2 / (t.2.2.2 : ℚ) = l := by
    simpa [okConfig, and_assoc] using hok
  subst hmk
  refine ⟨h1.1, rfl, h1.2, ?_⟩
  obtain ⟨a, b, c, d⟩ := t
  exact hfind

/-- Closed witness for `compute_config_first_valid`: for a 100 MHz refclk
and a 5 Gbps linerate the solver returns `n1 = 5`, `n2 = 5`, `m = 1`,
`d = 1` with a 2.5 GHz VCO, and that tuple is the first satisfying grid
point. -/
theorem compute_config_first_valid_witness :
    ((1.6e9 ≤ (2.5e9 : ℚ) ∧ (2.5e9 : ℚ) ≤ 3.3e9) ∧
      (2.5e9 : ℚ) = 1e8 * (((5 : Nat) : ℚ) * ((5 : Nat) : ℚ)) / ((1 : Nat) : ℚ) ∧
      (2.5e9 : ℚ) * 2 / ((1 : Nat) : ℚ) = 5e9 ∧
      lrGrid.find? (okConfig 1e8 5e9) = some (5, 5, 1, 1)) :=
  compute_config_first_valid 1e8 5e9
    { n1 := 5, n2 := 5, m := 1, d := 1,
      vco_freq := 2.5e9, clkin := 1e8, linerate := 5e9 }
    (by norm_num [compute_config, List.findSome?])

/-- C6 counterexample: the claim asserts that for a 100 MHz refclk and a
1 Gbps linerate the solver fails, but the code finds the combination
`n1 = 4, n2 = 5, m = 1` (VCO = 2 GHz, inside `[1.6e9, 3.3e9]`) with `d = 4`
giving exactly `2e9*2/4 = 1e9`, and returns it. -/
theorem compute_config_100MHz_1Gbps_succeeds :
    compute_config 1e8 1e9
      = some { n1 := 4, n2 := 5, m := 1, d := 4,
               vco_freq := 2e9, clkin := 1e8, linerate := 1e9 } := by
  norm_num [compute_config, List.findSome?]

/-- C6 (amended): `compute_config` fails (raises, i.e. returns no
`RateConfig` — never a partial result) exactly when no grid combination
satisfies both the VCO-range and the exact-linerate constraint; e.g. for a
100 MHz refclk and a 1.5 Gbps linerate it fails, while for 100 MHz and
1 Gbps it succeeds. -/
theorem compute_config_failure_iff :
    (∀ r l : ℚ, (compute_config r l = none
        ↔ ∀ t ∈ lrGrid, okConfig r l t = false)) ∧
    compute_config 1e8 1.5e9 = none ∧
    compute_config 1e8 1e9 ≠ none := by
  refine ⟨fun r l => ?_, ?_, ?_⟩
  · rw [compute_config_eq_specSolve]
    unfold specSolve
    rw [Option.map_eq_none']
    rw [List.find?_eq_none]
    constructor
    · intro h t ht
      exact Bool.not_eq_true _ ▸ (h t ht)
    · intro h t ht
      simp [h t ht]
  · norm_num [compute_config, List.findSome?]
  · have h : compute_config 1e8 1e9
        = some { n1 := 4, n2 := 5, m := 1, d := 4,
                 vco_freq := 2e9, clkin := 1e8, linerate := 1e9 } := by
      norm_num [compute_config, List.findSome?]
    rw [h]
    exact Option.some_ne_none _

/-- Bit length (fuel-based so that it reduces in the kernel): `bitLenAux n n`
is the number of bits of `n`.  nMigen gives `Signal(range(t+1))` a width of
`bits_for(t) = ceil(log2(t+1))`, which equals the bit length of `t`. -/
def bitLenAux : Nat → Nat → Nat
  | 0, _ => 0
  | fuel + 1, n => if n = 0 then 0 else bitLenAux fuel (n / 2) + 1

/-- The width of the `WaitTimer` counter `Signal(range(t+1))`
(`artix7.py` line 38). -/
def wtWidth (t : Nat) : Nat := bitLenAux t t

/-- Output `WaitTimer.done` (`artix7.py` line 39): combinational
`done = (count == 0)`. -/
def wtDone (count : Nat) : Bool := count = 0

/-- One `ss`-domain tick of `WaitTimer` (`artix7.py` lines 41-45): while
`wait` is asserted and `done` is not, `count.eq(count + 1)` — the sum is
truncated to the counter's width, i.e. taken modulo `2^wtWidth t`; while
`wait` is deasserted, `count.eq(count.reset)` reloads `t`; otherwise the
register holds. -/
def wtStep (t : Nat) (count : Nat) (wait : Bool) : Nat :=
  if wait then
    if wtDone count then count
    else (count + 1) % 2 ^ wtWidth t
  else t

/-- The `WaitTimer` counter over a run: reset value is `t`
(`reset=self._t`), then one `wtStep` per tick with the given `wait` input
sequence. -/
def wtRun (t : Nat) (wait : Nat → Bool) : Nat → Nat
  | 0 => t
  | n + 1 => wtStep t (wtRun t wait n) (wait n)

/-- C2 (code bug): with threshold `T = 5` and `wait` held asserted from
reset, the counter moves up (5 → 6 → 7 → 0 mod 8), not down, and `done`
first asserts 3 ticks after reset — not exactly `T = 5` ticks as the claim
(and the upstream `WaitTimer` this code was ported from, which decrements)
states.  The deassert clause of the claim does hold: one tick after `wait`
is deasserted the counter is back at `T` and `done` is false. -/
theorem waitTimer_counts_up_and_fires_early :
    wtRun 5 (fun _ => true) 1 = 6 ∧
    wtRun 5 (fun _ => true) 2 = 7 ∧
    wtDone (wtRun 5 (fun _ => true) 2) = false ∧
    wtRun 5 (fun _ => true) 3 = 0 ∧
    wtDone (wtRun 5 (fun _ => true) 3) = true ∧
    wtDone (wtRun 5 (fun _ => true) 5) = true ∧
    wtStep 5 5 true ≠ 4 ∧
    wtStep 5 3 false = 5 := by decide

/-- The states of the `GTPTXInit` FSM (`artix7.py` lines 164-206), in
declaration order; `POWER_DOWN` is the initial (and reset) state. -/
inductive TxState
  | POWER_DOWN
  | DRP
  | WAIT_PLL_RESET
  | WAIT_INIT_DELAY
  | WAIT_GTP_RESET
  | READY
deriving Repr, DecidableEq

/-- The per-tick inputs seen by the `GTPTXInit` FSM.  `plllock` and
`txresetdone` are the double-latched (`FFSynchronizer`) copies: the
synchronizers are plain two-tick delays of free external signals, so any
sequence of their outputs is realizable and they are taken as inputs
here. -/
structure TxIn where
  drp_done : Bool
  plllock : Bool
  txresetdone : Bool
  init_delay_done : Bool
  restart : Bool
  watchdog_done : Bool
deriving Repr, DecidableEq

/-- Signal `reset_self = self.restart | watchdog.done` (`artix7.py` line
211).  It gates the watchdog's `wait` input (line 212) and is handed to
`ResetInserter(reset_self)` (line 214) — but a bare value there means
`{"sync": reset_self}`, and every register of this module is in the `ss`
domain, so that reset controls no register at all. -/
def txResetSelf (i : TxIn) : Bool := i.restart || i.watchdog_done

/-- The complete next-state function of the `GTPTXInit` FSM state register
(`artix7.py` lines 164-206).  The `ResetInserter(reset_self)` wrapping the
module (line 214) names only the unused `sync` domain, so no synchronous
reset reaches the `ss`-domain FSM register: `restart` acts solely through
the explicit `READY → POWER-DOWN` transition, and watchdog expiry moves
nothing. -/
def txFsmNext (s : TxState) (i : TxIn) : TxState :=
  match s with
  | .POWER_DOWN => .DRP
  | .DRP => if i.drp_done then .WAIT_PLL_RESET else .DRP
  | .WAIT_PLL_RESET => if i.plllock then .WAIT_INIT_DELAY else .WAIT_PLL_RESET
  | .WAIT_INIT_DELAY =>
      if i.init_delay_done then .WAIT_GTP_RESET else .WAIT_INIT_DELAY
  | .WAIT_GTP_RESET => if i.txresetdone then .READY else .WAIT_GTP_RESET
  | .READY => if i.restart then .POWER_DOWN else .READY

/-- The combinational FSM outputs of `GTPTXInit` (`artix7.py` lines
164-206).  Signals not driven in a state default to 0; `txdlysreset`,
`txphinit` and `txphalign` are never driven in any state. -/
structure TxComb where
  gttxreset : Bool := false
  gttxpd : Bool := false
  pllreset : Bool := false
  drp_start : Bool := false
  txdlysreset : Bool := false
  txphinit : Bool := false
  txphalign : Bool := false
  txdlyen : Bool := false
  txuserrdy : Bool := false
  done : Bool := false
deriving Repr, DecidableEq

/-- The combinational decisions of each `GTPTXInit` FSM state. -/
def txComb (s : TxState) : TxComb :=
  match s with
  | .POWER_DOWN => { gttxreset := true, gttxpd := true, pllreset := true }
  | .DRP => { gttxreset := true, pllreset := true, drp_start := true }
  | .WAIT_PLL_RESET => { gttxreset := true }
  | .WAIT_INIT_DELAY => { gttxreset := true }
  | .WAIT_GTP_RESET => { txuserrdy := true }
  | .READY => { txuserrdy := true, txdlyen := true, done := true }

/-- The "deglitched" registered outputs of `GTPTXInit` (`artix7.py` lines
134-149): each is an `ss`-domain registered copy of the FSM's combinational
decision. -/
structure TxRegs where
  gttxreset : Bool := false
  gttxpd : Bool := false
  txdlysreset : Bool := false
  txphinit : Bool := false
  txphalign : Bool := false
  txdlyen : Bool := false
  txuserrdy : Bool := false
deriving Repr, DecidableEq

/-- One tick of the registered outputs (`artix7.py` lines 141-149): every
tick, each deglitch register loads the FSM's current combinational
decision — unconditionally, since the `ResetInserter` on this module is a
no-op for the `ss` domain. -/
def txRegsOf (s : TxState) : TxRegs :=
  { gttxreset := (txComb s).gttxreset
    gttxpd := (txComb s).gttxpd
    txdlysreset := (txComb s).txdlysreset
    txphinit := (txComb s).txphinit
    txphalign := (txComb s).txphalign
    txdlyen := (txComb s).txdlyen
    txuserrdy := (txComb s).txuserrdy }

/-- Threshold `int(500e-9 * 125e6)`: the `init_delay` threshold of `GTPTXInit`
at the default 125 MHz `ss` clock (`artix7.py` line 159). -/
def txInitDelayT : Nat := 62

/-- Threshold `int(1e-3 * 125e6)`: the watchdog threshold of `GTPTXInit` at the
default 125 MHz `ss` clock (`artix7.py` line 210). -/
def txWatchdogT : Nat := 125000

/-- The full synchronous state of one `GTPTXInit` instance: FSM state,
both `WaitTimer` counters and the registered outputs. -/
structure TxFull where
  fsm : TxState
  initCount : Nat
  wdCount : Nat
  regs : TxRegs
deriving Repr, DecidableEq

/-- The external per-tick inputs of `GTPTXInit` (synchronized transceiver
status plus the DRP handshake and the restart request). -/
structure TxExtIn where
  drp_done : Bool := true
  plllock : Bool := false
  txresetdone : Bool := false
  restart : Bool := false
deriving Repr, DecidableEq

/-- Assembling the FSM's input view from the external inputs and the
internal timers: `init_delay.done` and `watchdog.done` are the
combinational `count == 0` outputs of the two `WaitTimer`s. -/
def txMkIn (s : TxFull) (i : TxExtIn) : TxIn :=
  { drp_done := i.drp_done
    plllock := i.plllock
    txresetdone := i.txresetdone
    init_delay_done := wtDone s.initCount
    restart := i.restart
    watchdog_done := wtDone s.wdCount }

/-- One tick of the whole `GTPTXInit` module: the FSM, the `init_delay`
timer (whose `wait` is tied to 1, line 161), the watchdog (whose `wait` is
`~reset_self & ~self.done`, line 212 — the only place `reset_self` has an
effect, reloading the watchdog through the timer's `wait` deassertion) and
the registered outputs.  The `ResetInserter(reset_self)` of line 214
resets nothing, since it names only the unused `sync` domain. -/
def txFullStep (s : TxFull) (i : TxExtIn) : TxFull :=
  let fi := txMkIn s i
  let wdWait := !txResetSelf fi && !(txComb s.fsm).done
  { fsm := txFsmNext s.fsm fi
    initCount := wtStep txInitDelayT s.initCount true
    wdCount := wtStep txWatchdogT s.wdCount wdWait
    regs := txRegsOf s.fsm }

/-- The reset state of `GTPTXInit`: initial FSM state, timers at their
reset values, registered outputs at 0. -/
def txFullReset : TxFull :=
  { fsm := .POWER_DOWN, initCount := txInitDelayT, wdCount := txWatchdogT,
    regs := {} }

/-- A run of `GTPTXInit` from reset under an input stream. -/
def txFullRun (inp : Nat → TxExtIn) : Nat → TxFull
  | 0 => txFullReset
  | n + 1 => txFullStep (txFullRun inp n) (inp n)

/-- The states of the `GTPRXInit` FSM (`artix7.py` lines 296-367), in
declaration order; `POWER_DOWN` is the initial (and reset) state. -/
inductive RxState
  | POWER_DOWN
  | DRP_READ_ISSUE
  | DRP_READ_ISSUE_POST
  | DRP_READ_WAIT
  | DRP_MOD_ISSUE
  | DRP_MOD_WAIT
  | WAIT_PMARST_FALL
  | DRP_RESTORE_ISSUE
  | DRP_RESTORE_WAIT
  | WAIT_GTP_RESET
  | READY
deriving Repr, DecidableEq

/-- The per-tick inputs of `GTPRXInit`.  `rxpmaresetdone` and `rxresetdone`
are the `FFSynchronizer`-latched copies (two-tick delays of free external
signals, hence free inputs here); `drp_rdy`/`drp_do` are the DRP bus
response. -/
structure RxIn where
  init_delay_done : Bool
  drp_rdy : Bool
  drp_do : Nat
  rxpmaresetdone : Bool
  rxresetdone : Bool
  restart : Bool
  watchdog_done : Bool
deriving Repr, DecidableEq

/-- The synchronous state of `GTPRXInit` relevant to its register-bus
sequence: FSM state, the 16-bit `drpvalue` holding register, and
`rxpmaresetdone_r`, the one-tick-delayed copy of the latched
`rxpmaresetdone` (`artix7.py` lines 245, 261-262). -/
structure RxSt where
  fsm : RxState
  drpvalue : Nat
  pma_r : Bool
deriving Repr, DecidableEq

/-- Signal `reset_self = watchdog.done | self.restart` (`artix7.py` line
371).  As on the Tx side, it gates the watchdog's `wait` (line 372) and
feeds `ResetInserter(reset_self)` (line 374), which names only the unused
`sync` domain and therefore resets no `ss`-domain register. -/
def rxResetSelf (i : RxIn) : Bool := i.watchdog_done || i.restart

/-- The complete next-state function of the `GTPRXInit` FSM state register
(`artix7.py` lines 296-367).  The `WAIT_PMARST_FALL` exit condition is the
falling-edge detect `rxpmaresetdone_r & ~rxpmaresetdone` (line 339).  The
`ResetInserter(reset_self)` of line 374 is a no-op for the `ss` domain, so
`restart` acts solely through the explicit `READY → POWER-DOWN`
transition and watchdog expiry moves nothing. -/
def rxFsmNext (s : RxSt) (i : RxIn) : RxState :=
  match s.fsm with
  | .POWER_DOWN => .DRP_READ_ISSUE
  | .DRP_READ_ISSUE =>
      if i.init_delay_done then .DRP_READ_ISSUE_POST else .DRP_READ_ISSUE
  | .DRP_READ_ISSUE_POST => .DRP_READ_WAIT
  | .DRP_READ_WAIT => if i.drp_rdy then .DRP_MOD_ISSUE else .DRP_READ_WAIT
  | .DRP_MOD_ISSUE => .DRP_MOD_WAIT
  | .DRP_MOD_WAIT => if i.drp_rdy then .WAIT_PMARST_FALL else .DRP_MOD_WAIT
  | .WAIT_PMARST_FALL =>
      if s.pma_r && !i.rxpmaresetdone then .DRP_RESTORE_ISSUE
      else .WAIT_PMARST_FALL
  | .DRP_RESTORE_ISSUE => .DRP_RESTORE_WAIT
  | .DRP_RESTORE_WAIT =>
      if i.drp_rdy then .WAIT_GTP_RESET else .DRP_RESTORE_WAIT
  | .WAIT_GTP_RESET => if i.rxresetdone then .READY else .WAIT_GTP_RESET
  | .READY => if i.restart then .POWER_DOWN else .READY

/-- One tick of the `GTPRXInit` synchronous state: `drpvalue` latches the
16-bit DRP read data in `DRP_READ_WAIT` when `drp.rdy` is high (line 319)
and holds otherwise, and `rxpmaresetdone_r` follows `rxpmaresetdone` with
a one-tick delay (line 262).  No register is reset by
`ResetInserter(reset_self)` (line 374), which names only the unused
`sync` domain. -/
def rxStep (s : RxSt) (i : RxIn) : RxSt :=
  { fsm := rxFsmNext s i
    drpvalue :=
      if s.fsm = .DRP_READ_WAIT ∧ i.drp_rdy then i.drp_do % 2 ^ 16
      else s.drpvalue
    pma_r := i.rxpmaresetdone }

/-- The combinational outputs of `GTPRXInit` (`artix7.py` lines 248-256 and
the FSM states): `drp.addr` is hard-wired to `0x011`; `drp.di` is
`drpvalue & 0xf7ff` while `drpmask` is asserted (only in `DRP_MOD_ISSUE`)
and `drpvalue` otherwise; `rxdlysreset` and `rxphalign` are never driven. -/
structure RxComb where
  gtrxreset : Bool := false
  gtrxpd : Bool := false
  rxdlysreset : Bool := false
  rxphalign : Bool := false
  rxuserrdy : Bool := false
  done : Bool := false
  drp_en : Bool := false
  drp_we : Bool := false
  drpmask : Bool := false
  drp_addr : Nat := 0x011
  drp_di : Nat := 0
deriving Repr, DecidableEq

/-- The combinational decisions of each `GTPRXInit` FSM state, together
with the `drp` bus drive (`artix7.py` lines 248-256, 296-367). -/
def rxComb (s : RxSt) : RxComb :=
  let mask : Bool := s.fsm = .DRP_MOD_ISSUE
  let di : Nat := if mask then s.drpvalue &&& 0xf7ff else s.drpvalue
  match s.fsm with
  | .POWER_DOWN => { gtrxreset := true, gtrxpd := true, drp_di := di }
  | .DRP_READ_ISSUE => { gtrxreset := true, drp_di := di }
  | .DRP_READ_ISSUE_POST => { gtrxreset := true, drp_en := true, drp_di := di }
  | .DRP_READ_WAIT => { gtrxreset := true, drp_di := di }
  | .DRP_MOD_ISSUE =>
      { gtrxreset := true, drpmask := true, drp_en := true, drp_we := true,
        drp_di := di }
  | .DRP_MOD_WAIT => { gtrxreset := true, drp_di := di }
  | .WAIT_PMARST_FALL => { rxuserrdy := true, drp_di := di }
  | .DRP_RESTORE_ISSUE =>
      { rxuserrdy := true, drp_en := true, drp_we := true, drp_di := di }
  | .DRP_RESTORE_WAIT => { rxuserrdy := true, drp_di := di }
  | .WAIT_GTP_RESET => { rxuserrdy := true, drp_di := di }
  | .READY => { rxuserrdy := true, done := true, drp_di := di }

/-- The "deglitched" registered outputs of `GTPRXInit` (`artix7.py` lines
277-288). -/
structure RxRegs where
  gtrxreset : Bool := false
  gtrxpd : Bool := false
  rxdlysreset : Bool := false
  rxphalign : Bool := false
  rxuserrdy : Bool := false
deriving Repr, DecidableEq

/-- One tick of the `GTPRXInit` registered outputs (`artix7.py` lines
282-288): each deglitch register loads the current combinational decision
unconditionally (the module's `ResetInserter` is a no-op for the `ss`
domain). -/
def rxRegsOf (s : RxSt) : RxRegs :=
  { gtrxreset := (rxComb s).gtrxreset
    gtrxpd := (rxComb s).gtrxpd
    rxdlysreset := (rxComb s).rxdlysreset
    rxphalign := (rxComb s).rxphalign
    rxuserrdy := (rxComb s).rxuserrdy }

/-- Wiring in `GTP.elaborate` (`artix7.py` line 608): `tx_init.restart = ~tx_enable`. -/
def GTP_tx_restart (tx_enable : Bool) : Bool := !tx_enable

/-- Wiring in `GTP.elaborate` (`artix7.py` line 607): `tx_ready = tx_init.done`,
where `done` is the combinational FSM output. -/
def GTP_tx_ready (s : TxFull) : Bool := (txComb s.fsm).done

/-- Wiring in `GTP.elaborate` (`artix7.py` line 617): `rx_init.restart = ~rx_enable`. -/
def GTP_rx_restart (rx_enable : Bool) : Bool := !rx_enable

/-- Wiring in `GTP.elaborate` (`artix7.py` line 616): `rx_ready = rx_init.done`. -/
def GTP_rx_ready (s : RxSt) : Bool := (rxComb s).done

/-- Wiring in `LunaArtix7SerDes.elaborate` (`artix7.py` line 1493):
`ready = serdes.tx_ready & serdes.rx_ready`; both `serdes.tx_enable` and
`serdes.rx_enable` are driven from the single `enable` input (lines 1502
and 1520). -/
def serdes_ready (tx : TxFull) (rx : RxSt) : Bool :=
  GTP_tx_ready tx && GTP_rx_ready rx

/-- A concrete Tx FSM input with `restart` asserted (and every handshake
reporting success), used in theorems below. -/
def txInRestart : TxIn :=
  { drp_done := true, plllock := true, txresetdone := true,
    init_delay_done := false, restart := true, watchdog_done := false }

/-- A concrete Tx FSM input with only the watchdog expired, used to show
watchdog expiry moves nothing. -/
def txInWatchdogOnly : TxIn :=
  { drp_done := true, plllock := false, txresetdone := false,
    init_delay_done := false, restart := false, watchdog_done := true }

/-- A concrete Rx controller state in the middle of its DRP sequence, used
in theorems below. -/
def rxStWaiting : RxSt :=
  { fsm := RxState.WAIT_PMARST_FALL, drpvalue := 77, pma_r := true }

/-- A concrete Rx FSM input with the watchdog expired (analog-reset-done
still high, so no falling edge either), used in theorems below. -/
def rxInWatchdog : RxIn :=
  { init_delay_done := true, drp_rdy := false, drp_do := 0,
    rxpmaresetdone := true, rxresetdone := false, restart := false,
    watchdog_done := true }

/-- A concrete Rx FSM input with `restart` asserted mid-bringup
(analog-reset-done still high, so no falling edge), used in theorems
below. -/
def rxInRestartMid : RxIn :=
  { init_delay_done := true, drp_rdy := true, drp_do := 0,
    rxpmaresetdone := true, rxresetdone := false, restart := true,
    watchdog_done := false }

/-- A concrete Rx FSM input with `restart` asserted, used in theorems
below. -/
def rxInReady : RxIn :=
  { init_delay_done := false, drp_rdy := false, drp_do := 0,
    rxpmaresetdone := false, rxresetdone := false, restart := true,
    watchdog_done := false }

/-- The power-on state of the `GTPRXInit` synchronous registers, used in
theorems below. -/
def rxStReset : RxSt :=
  { fsm := RxState.POWER_DOWN, drpvalue := 0, pma_r := false }

/-- A concrete Rx controller state in `READY`, used in theorems below. -/
def rxStReady : RxSt :=
  { fsm := RxState.READY, drpvalue := 77, pma_r := true }

/-- A concrete full Tx controller state in `READY`, used in theorems
below. -/
def txFullReady : TxFull :=
  { fsm := TxState.READY, initCount := 0, wdCount := 3, regs := {} }

/-- A concrete external Tx input with `restart` asserted, used in theorems
below. -/
def txExtRestart : TxExtIn :=
  { drp_done := true, plllock := false, txresetdone := false,
    restart := true }

/-- C3 (code bug): `ResetInserter(reset_self)` (`artix7.py` lines 214 and
374) is given a bare value, which nMigen reads as `{"sync": reset_self}`;
every register of both controllers is in the `ss` domain, so no reset is
inserted anywhere.  Hence `restart` is honored only by the explicit
`READY → POWER-DOWN` transition, and watchdog expiry moves nothing: in
`DRP` with `restart` asserted (DRP helper done) the Tx FSM advances to
`WAIT-PLL-RESET`, not `POWER-DOWN`; with only the watchdog expired it sits
in `WAIT-PLL-RESET`; the Rx FSM in `WAIT_PMARST_FALL` likewise ignores
both `restart` and watchdog expiry.  Only from `READY` does `restart`
reach `POWER-DOWN` (with `done` false) one tick later, as the claim — and
the spec, following the migen original where the inserted reset did apply
to the FSM — demands of every state. -/
theorem restart_not_forcing_power_down :
    txFsmNext TxState.DRP txInRestart = TxState.WAIT_PLL_RESET ∧
    txFsmNext TxState.DRP txInRestart ≠ TxState.POWER_DOWN ∧
    txFsmNext TxState.WAIT_PLL_RESET txInWatchdogOnly
      = TxState.WAIT_PLL_RESET ∧
    (rxStep rxStWaiting rxInRestartMid).fsm = RxState.WAIT_PMARST_FALL ∧
    (rxStep rxStWaiting rxInWatchdog).fsm = RxState.WAIT_PMARST_FALL ∧
    txFsmNext TxState.READY txInRestart = TxState.POWER_DOWN ∧
    (txComb (txFsmNext TxState.READY txInRestart)).done = false ∧
    (rxStep rxStReady rxInReady).fsm = RxState.POWER_DOWN := by decide

/-- The `enable` sequence of the counterexample run: asserted up to and
excluding tick 5, deasserted from tick 5 on. -/
def cexEnable (n : Nat) : Bool := !decide (5 ≤ n)

/-- The external input stream of the counterexample run: the DRP helper,
the (synchronized) PLL lock and the Tx reset-done report success
throughout, and `restart` is wired to `~tx_enable` exactly as in
`GTP.elaborate`. -/
def cexTxIn (n : Nat) : TxExtIn :=
  { drp_done := true, plllock := true, txresetdone := true,
    restart := GTP_tx_restart (cexEnable n) }

/-- C9 counterexample: in the run `cexTxIn` the Tx controller reaches
`READY` at tick 5, the tick at which `tx_enable` is deasserted.  This is a
reachable state in which the enable input is deasserted (so `restart` is
held asserted), yet `tx_ready` — the combinational `done` of the `READY`
state — is still asserted in that tick; it clears only one tick later.
Moreover, since `restart` is sampled only in `READY` (the `ResetInserter`
being a no-op for the `ss` domain), the bringup sequence simply runs again
while enable stays low, and at tick 11 the controller is back in `READY`
with `tx_ready` asserted once more. -/
theorem enable_deassert_stale_ready_cex :
    cexEnable 5 = false ∧
    (cexTxIn 5).restart = GTP_tx_restart (cexEnable 5) ∧
    (txFullRun cexTxIn 5).fsm = TxState.READY ∧
    GTP_tx_ready (txFullRun cexTxIn 5) = true ∧
    GTP_tx_ready (txFullRun cexTxIn 6) = false ∧
    cexEnable 11 = false ∧
    (txFullRun cexTxIn 11).fsm = TxState.READY ∧
    GTP_tx_ready (txFullRun cexTxIn 11) = true := by decide

/-- C9 (amended): `tx_init.restart`/`rx_init.restart` are the negations of
the corresponding enable inputs and the consumer-facing ready outputs are
the controllers' combinational `done`; a deasserted enable therefore holds
the controller's `restart` input asserted, but that restart is honored
only in the `READY` state: a controller that is ready while its enable is
deasserted is in POWER-DOWN — with its ready, and hence the top-level
ready, deasserted — exactly one tick later, so ready is never asserted on
two consecutive ticks while enable is low.  Mid-bringup states keep
advancing regardless of enable. -/
theorem enable_deassert_restart_only_in_ready :
    (∀ e : Bool, GTP_tx_restart e = !e) ∧
    (∀ e : Bool, GTP_rx_restart e = !e) ∧
    (∀ (s : TxFull) (i : TxExtIn), i.restart = true →
      GTP_tx_ready s = true →
      (txFullStep s i).fsm = TxState.POWER_DOWN ∧
        GTP_tx_ready (txFullStep s i) = false) ∧
    (∀ (s : RxSt) (i : RxIn), i.restart = true →
      GTP_rx_ready s = true →
      (rxStep s i).fsm = RxState.POWER_DOWN ∧
        GTP_rx_ready (rxStep s i) = false) ∧
    (∀ (tx : TxFull) (rx : RxSt), GTP_tx_ready tx = false →
      serdes_ready tx rx = false) ∧
    (∀ (tx : TxFull) (rx : RxSt), GTP_rx_ready rx = false →
      serdes_ready tx rx = false) := by
  refine ⟨fun e => rfl, fun e => rfl, ?_, ?_, ?_, ?_⟩
  · intro s i hre hready
    have hfsm : s.fsm = TxState.READY := by
      cases h : s.fsm <;> simp_all [GTP_tx_ready, txComb]
    have hnext : txFsmNext s.fsm (txMkIn s i) = TxState.POWER_DOWN := by
      rw [hfsm]
      simp [txFsmNext, txMkIn, hre]
    constructor
    · show txFsmNext s.fsm (txMkIn s i) = TxState.POWER_DOWN
      exact hnext
    · show (txComb (txFsmNext s.fsm (txMkIn s i))).done = false
      rw [hnext]
      rfl
  · intro s i hre hready
    have hfsm : s.fsm = RxState.READY := by
      cases h : s.fsm <;> simp_all [GTP_rx_ready, rxComb]
    have hnext : rxFsmNext s i = RxState.POWER_DOWN := by
      simp [rxFsmNext, hfsm, hre]
    constructor
    · show rxFsmNext s i = RxState.POWER_DOWN
      exact hnext
    · show (rxComb (rxStep s i)).done = false
      simp [rxStep, rxComb, hnext]
  · intro tx rx h
    simp [serdes_ready, h]
  · intro tx rx h
    simp [serdes_ready, h]

/-- Closed witness for `enable_deassert_restart_only_in_ready`, applying
it at concrete ready controllers with `restart` asserted. -/
theorem enable_deassert_restart_only_in_ready_witness :
    GTP_tx_restart true = !true ∧
    GTP_rx_restart false = !false ∧
    ((txFullStep txFullReady txExtRestart).fsm = TxState.POWER_DOWN ∧
      GTP_tx_ready (txFullStep txFullReady txExtRestart) = false) ∧
    ((rxStep rxStReady rxInReady).fsm = RxState.POWER_DOWN ∧
      GTP_rx_ready (rxStep rxStReady rxInReady) = false) ∧
    serdes_ready txFullReset rxStReady = false ∧
    serdes_ready txFullReady rxStReset = false :=
  ⟨enable_deassert_restart_only_in_ready.1 true,
   enable_deassert_restart_only_in_ready.2.1 false,
   enable_deassert_restart_only_in_ready.2.2.1 txFullReady txExtRestart
     rfl (by decide),
   enable_deassert_restart_only_in_ready.2.2.2.1 rxStReady rxInReady
     rfl (by decide),
   enable_deassert_restart_only_in_ready.2.2.2.2.1 txFullReset rxStReady
     rfl,
   enable_deassert_restart_only_in_ready.2.2.2.2.2 txFullReady rxStReset
     rfl⟩

/-- A run of the `GTPRXInit` state together with its deglitch output
registers (`artix7.py` lines 282-288): from power-on values, the FSM state
advances by `rxStep` and the output registers load the FSM's current
combinational decisions every tick. -/
def rxFullRun (inp : Nat → RxIn) : Nat → RxSt × RxRegs
  | 0 => (rxStReset, {})
  | n + 1 =>
      (rxStep (rxFullRun inp n).1 (inp n), rxRegsOf (rxFullRun inp n).1)

/-- C10: every transceiver-facing control output of the bringup
controllers (Tx: `gttxreset`, `gttxpd`, `txdlysreset`, `txphinit`,
`txphalign`, `txdlyen`, `txuserrdy`; Rx: `gtrxreset`, `gtrxpd`,
`rxdlysreset`, `rxphalign`, `rxuserrdy`) is a registered copy of the state
machine's combinational decision: at every tick `t` of any run, the
externally visible output at tick `t+1` equals the value the FSM computed
at tick `t` — unconditionally, since the `ResetInserter` on these modules
names only the unused `sync` domain and never touches these
registers. -/
theorem outputs_registered_one_tick :
    (∀ (u : Nat → TxExtIn) (t : Nat),
      (txFullRun u (t + 1)).regs.gttxreset
        = (txComb (txFullRun u t).fsm).gttxreset ∧
      (txFullRun u (t + 1)).regs.gttxpd
        = (txComb (txFullRun u t).fsm).gttxpd ∧
      (txFullRun u (t + 1)).regs.txdlysreset
        = (txComb (txFullRun u t).fsm).txdlysreset ∧
      (txFullRun u (t + 1)).regs.txphinit
        = (txComb (txFullRun u t).fsm).txphinit ∧
      (txFullRun u (t + 1)).regs.txphalign
        = (txComb (txFullRun u t).fsm).txphalign ∧
      (txFullRun u (t + 1)).regs.txdlyen
        = (txComb (txFullRun u t).fsm).txdlyen ∧
      (txFullRun u (t + 1)).regs.txuserrdy
        = (txComb (txFullRun u t).fsm).txuserrdy) ∧
    (∀ (inp : Nat → RxIn) (t : Nat),
      (rxFullRun inp (t + 1)).2.gtrxreset
        = (rxComb (rxFullRun inp t).1).gtrxreset ∧
      (rxFullRun inp (t + 1)).2.gtrxpd
        = (rxComb (rxFullRun inp t).1).gtrxpd ∧
      (rxFullRun inp (t + 1)).2.rxdlysreset
        = (rxComb (rxFullRun inp t).1).rxdlysreset ∧
      (rxFullRun inp (t + 1)).2.rxphalign
        = (rxComb (rxFullRun inp t).1).rxphalign ∧
      (rxFullRun inp (t + 1)).2.rxuserrdy
        = (rxComb (rxFullRun inp t).1).rxuserrdy) :=
  ⟨fun _ _ => ⟨rfl, rfl, rfl, rfl, rfl, rfl, rfl⟩,
   fun _ _ => ⟨rfl, rfl, rfl, rfl, rfl⟩⟩

/-- Modelled from the spec: the fixed sentinel "substitution" symbol `SUB`
imported from the external symbol-coding module
(`usb.usb3.physical.coding`), which is not part of this repository.  The
spec fixes only that it is one fixed byte/control pair; the concrete
encoding used here (the K28.4 control symbol, byte `0x9C`, control bit 1)
stands in for the external constant and no theorem depends on the actual
numbers. -/
def SUB_value : Nat := 0x9c

/-- Modelled from the spec: the control bit of the substitution symbol
(`SUB.ctrl`); it is a control symbol, so the bit is set. -/
def SUB_ctrl : Bool := true

/-- Constant `GTP.nwords = data_width // 10 = 2` (`artix7.py` line 536). -/
abbrev nwords : Nat := 2

/-- The receive datapath of `GTP.elaborate` (`artix7.py` lines 1397-1411):
for each lane word `i`, if the device's decode-error flag
(`RXNOTINTABLE`) is set the output byte/control pair is the substitution
symbol, otherwise the device's decoded byte (an 8-bit slice) and control
bit pass through.  Purely combinational: a function of the current tick's
inputs only. -/
def rxDatapathWord (rx_data : Fin nwords → Nat)
    (rx_ctrl rx_code_error : Fin nwords → Bool) (i : Fin nwords) :
    Nat × Bool :=
  if rx_code_error i then (SUB_value, SUB_ctrl)
  else (rx_data i % 2 ^ 8, rx_ctrl i)

/-- Output `source.valid` is tied to 1 (`artix7.py` line 1394). -/
def rxSourceValid : Bool := true

/-- C4: per lane word and per tick, an asserted decode error replaces the
output byte and control bit with the fixed substitution symbol in the same
tick, a deasserted one passes the device's decoded byte and control bit
through unchanged; the decision is per-lane and memoryless (the output for
lane `i` depends only on lane `i`'s current-tick inputs), and the output
valid is always asserted. -/
theorem rx_decode_error_substitution :
    (∀ (d : Fin nwords → Nat) (c e : Fin nwords → Bool) (i : Fin nwords),
      (e i = true → rxDatapathWord d c e i = (SUB_value, SUB_ctrl)) ∧
      (e i = false → rxDatapathWord d c e i = (d i % 2 ^ 8, c i)) ∧
      (∀ (d' : Fin nwords → Nat) (c' e' : Fin nwords → Bool),
        d' i = d i → c' i = c i → e' i = e i →
        rxDatapathWord d' c' e' i = rxDatapathWord d c e i)) ∧
    rxSourceValid = true := by
  refine ⟨fun d c e i => ⟨fun h => ?_, fun h => ?_, fun d' c' e' hd hc he => ?_⟩,
    rfl⟩
  · simp [rxDatapathWord, h]
  · simp [rxDatapathWord, h]
  · simp only [rxDatapathWord, hd, hc, he]

/-- A concrete decode-error pattern: an error on lane 0 only. -/
def cexErrFlags : Fin nwords → Bool := fun i => decide (i = 0)

/-- Closed witness for `rx_decode_error_substitution` at a concrete pair of
lanes: lane 0 carries a decode error and is substituted, lane 1 passes
through. -/
theorem rx_decode_error_substitution_witness :
    rxDatapathWord (fun _ => 0xA5) (fun _ => false) cexErrFlags 0
      = (SUB_value, SUB_ctrl) ∧
    rxDatapathWord (fun _ => 0xA5) (fun _ => false) cexErrFlags 1
      = (0xA5 % 2 ^ 8, false) ∧
    rxSourceValid = true :=
  ⟨(rx_decode_error_substitution.1 (fun _ => 0xA5) (fun _ => false)
      cexErrFlags 0).1 (by decide),
   (rx_decode_error_substitution.1 (fun _ => 0xA5) (fun _ => false)
      cexErrFlags 1).2.1 (by decide),
   rx_decode_error_substitution.2⟩

/-- nMigen `Repl(bit, w)`: the single bit replicated across `w` lanes —
all-ones when the bit is set, all-zeros otherwise. -/
def Repl (b : Bool) (w : Nat) : Nat := if b then 2 ^ w - 1 else 0

/-- The transmit-side drive of `GTP.elaborate` (`artix7.py` lines
1363-1385). -/
structure TxDpOut where
  tx_enable_8b10b : Bool
  tx_data : Nat
  tx_ctrl : Nat
  tx_char_disp_mode : Nat
  tx_char_disp_val : Nat
deriving Repr, DecidableEq

/-- The transmit datapath of `GTP.elaborate` (`artix7.py` lines
1363-1385): in Tx-GPIO mode 8b10b is disabled, `tx_data` (16 bits) and the
two disparity-control fields `tx_char_disp_mode`/`tx_char_disp_val` (2
bits each) are all driven to `Repl(tx_gpio, width)` and `tx_ctrl` to 0; in
normal mode 8b10b is enabled and the consumer's 16-bit data and 2-bit
control payload are forwarded, with the disparity fields at 0. -/
def txDatapath (tx_gpio_en tx_gpio : Bool) (sink_data sink_ctrl : Nat) :
    TxDpOut :=
  if tx_gpio_en then
    { tx_enable_8b10b := false
      tx_data := Repl tx_gpio 16
      tx_ctrl := 0
      tx_char_disp_mode := Repl tx_gpio 2
      tx_char_disp_val := Repl tx_gpio 2 }
  else
    { tx_enable_8b10b := true
      tx_data := sink_data % 2 ^ 16
      tx_ctrl := sink_ctrl % 2 ^ 2
      tx_char_disp_mode := 0
      tx_char_disp_val := 0 }

/-- Output `sink.ready` is tied to 1 (`artix7.py` line 1359). -/
def txSinkReady : Bool := true

/-- C8: with the raw-line-drive flag set, line coding (8b10b) is disabled
and the single `tx_gpio` bit is replicated across the full lane width into
the payload field and both control/disparity fields
(`tx_char_disp_mode` / `tx_char_disp_val`); with the flag clear, the
consumer's byte and control payload are forwarded with line coding
enabled.  The two modes are mutually exclusive — line coding is enabled
exactly when the flag is clear — and the transmit side always reports
ready-to-accept. -/
theorem tx_gpio_mode_replication :
    (∀ (en g : Bool) (d c : Nat),
      (en = true →
        (txDatapath en g d c).tx_enable_8b10b = false ∧
        (txDatapath en g d c).tx_data = Repl g 16 ∧
        (txDatapath en g d c).tx_char_disp_mode = Repl g 2 ∧
        (txDatapath en g d c).tx_char_disp_val = Repl g 2) ∧
      (en = false →
        (txDatapath en g d c).tx_enable_8b10b = true ∧
        (txDatapath en g d c).tx_data = d % 2 ^ 16 ∧
        (txDatapath en g d c).tx_ctrl = c % 2 ^ 2 ∧
        (txDatapath en g d c).tx_char_disp_mode = 0 ∧
        (txDatapath en g d c).tx_char_disp_val = 0) ∧
      (txDatapath en g d c).tx_enable_8b10b = !en) ∧
    txSinkReady = true := by
  refine ⟨fun en g d c => ⟨fun h => ?_, fun h => ?_, ?_⟩, rfl⟩
  · subst h
    exact ⟨rfl, rfl, rfl, rfl⟩
  · subst h
    exact ⟨rfl, rfl, rfl, rfl, rfl⟩
  · cases en <;> rfl

/-- Closed witness for `tx_gpio_mode_replication`: raw mode with
`tx_gpio = 1` drives all 16 payload bits and both 2-bit disparity fields
to 1 with 8b10b off. -/
theorem tx_gpio_mode_replication_witness :
    ((txDatapath true true 0x1234 1).tx_enable_8b10b = false ∧
      (txDatapath true true 0x1234 1).tx_data = Repl true 16 ∧
      (txDatapath true true 0x1234 1).tx_char_disp_mode = Repl true 2 ∧
      (txDatapath true true 0x1234 1).tx_char_disp_val = Repl true 2) ∧
    ((txDatapath false true 0x1234 1).tx_enable_8b10b = true ∧
      (txDatapath false true 0x1234 1).tx_data = 0x1234 % 2 ^ 16 ∧
      (txDatapath false true 0x1234 1).tx_ctrl = 1 % 2 ^ 2 ∧
      (txDatapath false true 0x1234 1).tx_char_disp_mode = 0 ∧
      (txDatapath false true 0x1234 1).tx_char_disp_val = 0) ∧
    txSinkReady = true :=
  ⟨(tx_gpio_mode_replication.1 true true 0x1234 1).1 rfl,
   (tx_gpio_mode_replication.1 false true 0x1234 1).2.1 rfl,
   tx_gpio_mode_replication.2⟩

/-- The controller-to-peripheral drive of one `DRPInterface`
(`artix7.py` lines 50-60): `en`/`we` strobes, 9-bit address, 16-bit write
data.  Combinationally undriven signals default to 0. -/
structure DRPDrive where
  en : Bool := false
  we : Bool := false
  addr : Nat := 0
  di : Nat := 0
deriving Repr, DecidableEq

/-- The peripheral-to-controller reply of one `DRPInterface`: the `rdy`
pulse and 16-bit read data.  Defaults model the undriven (zero) comb
signals of unselected requesters. -/
structure DRPReply where
  rdy : Bool := false
  dout : Nat := 0
deriving Repr, DecidableEq

/-- Embedding of `DRPMux.elaborate` (`artix7.py` lines 73-83), physical-bus side: under
`Switch(sel)`, case `i` connects requester `i`'s fan-out lines to the
bus.  If `sel` matches no registered interface, no case drives the bus and
its lines stay 0. -/
def drpMuxPhys (ifaces : List DRPDrive) (sel : Nat) : DRPDrive :=
  (ifaces[sel]?).getD {}

/-- Embedding of `DRPMux.elaborate` (`artix7.py` lines 73-83), requester side: the
selected requester (and only it) receives the bus's `rdy`/`do` fan-in
lines; every other requester's reply lines stay 0.  `count` is the number
of registered interfaces. -/
def drpMuxReply (count sel : Nat) (physRdy : Bool) (physDo : Nat)
    (i : Nat) : DRPReply :=
  if i = sel ∧ i < count then { rdy := physRdy, dout := physDo } else {}

/-- Per-tick reply of the mux over input streams; the mux holds no state,
so tick `t`'s replies are a function of tick `t`'s inputs only. -/
def drpMuxReplyRun (count : Nat) (selSeq : Nat → Nat)
    (rdySeq : Nat → Bool) (doSeq : Nat → Nat) (t i : Nat) : DRPReply :=
  drpMuxReply count (selSeq t) (rdySeq t) (doSeq t) i

/-- C7 counterexample: with two registered requesters and selector value 2
(a legal value of the 4-bit `sel` input), the bus pulses `rdy` but *no*
registered requester receives it, and the bus sees no requester's drive —
so it is not the case that, for every selector value, exactly one
registered requester is connected and receives the bus's ready/data
back. -/
theorem arbiter_unselected_sel_cex :
    (¬ ∃ i : Fin 2, (drpMuxReply 2 2 true 5 i.val).rdy = true) ∧
    drpMuxPhys [{ en := true, we := false, addr := 3, di := 7 },
      { en := true, we := true, addr := 5, di := 9 }] 2 = {} := by
  decide

/-- C7 (amended): for every selector value that indexes a registered
requester, that requester's enable/write/address/data lines are the ones
driven onto the physical bus, the bus's ready/data-out lines are reflected
back only to it, and every other requester observes no activity; and since
the mux is combinational, the requester selected at a tick sees `rdy` only
if the physical bus drives `rdy` at that same tick — a ready pulse of an
earlier tick (e.g. one belonging to the previously selected requester) is
never replayed to the newly selected requester. -/
theorem arbiter_selected_transparent (ifaces : List DRPDrive) (sel : Nat)
    (physRdy : Bool) (physDo : Nat) (h : sel < ifaces.length) :
    drpMuxPhys ifaces sel = ifaces.get ⟨sel, h⟩ ∧
    drpMuxReply ifaces.length sel physRdy physDo sel
      = { rdy := physRdy, dout := physDo } ∧
    (∀ j : Nat, j ≠ sel → drpMuxReply ifaces.length sel physRdy physDo j
      = {}) ∧
    (∀ (selSeq : Nat → Nat) (rdySeq : Nat → Bool) (doSeq : Nat → Nat)
      (t : Nat), rdySeq (t + 1) = false →
      (drpMuxReplyRun ifaces.length selSeq rdySeq doSeq (t + 1)
        (selSeq (t + 1))).rdy = false) := by
  refine ⟨?_, ?_, ?_, ?_⟩
  · simp [drpMuxPhys, List.getElem?_eq_getElem h]
  · simp [drpMuxReply, h]
  · intro j hj
    simp [drpMuxReply, hj]
  · intro selSeq rdySeq doSeq t hrdy
    unfold drpMuxReplyRun drpMuxReply
    split
    · simp [hrdy]
    · rfl

/-- Closed witness for `arbiter_selected_transparent`: two registered
requesters, requester 1 selected: its drive reaches the bus, it alone sees
the `rdy` pulse and read data, requester 0 sees nothing. -/
theorem arbiter_selected_transparent_witness :
    drpMuxPhys [{ en := true, we := false, addr := 3, di := 7 },
        { en := true, we := true, addr := 5, di := 9 }] 1
      = List.get [{ en := true, we := false, addr := 3, di := 7 },
        { en := true, we := true, addr := 5, di := 9 }] ⟨1, by decide⟩ ∧
    drpMuxReply 2 1 true 0xBEEF 1 = { rdy := true, dout := 0xBEEF } ∧
    (∀ j : Nat, j ≠ 1 → drpMuxReply 2 1 true 0xBEEF j = {}) ∧
    (∀ (selSeq : Nat → Nat) (rdySeq : Nat → Bool) (doSeq : Nat → Nat)
      (t : Nat), rdySeq (t + 1) = false →
      (drpMuxReplyRun 2 selSeq rdySeq doSeq (t + 1) (selSeq (t + 1))).rdy
        = false) :=
  arbiter_selected_transparent
    [{ en := true, we := false, addr := 3, di := 7 },
     { en := true, we := true, addr := 5, di := 9 }] 1 true 0xBEEF
    (by decide)

/-- C5: in the `GTPRXInit` read-modify-write sequence, (1) the DRP address
is hard-wired to `0x011` in every state; (2) in `DRP_MOD_ISSUE` the write
strobes are asserted and the value driven is the previously read
`drpvalue` masked with `0xf7ff` — bit 11 cleared, every other bit of the
16-bit value unchanged; (3) the read phase latches the 16-bit DRP read
data into `drpvalue` and advances to the modify phase; (4) outside the
latch (and absent a reset) `drpvalue` is preserved; (5) in
`DRP_RESTORE_ISSUE` the write strobes are asserted with the unmodified
`drpvalue`; (6) that restore phase is entered from `WAIT_PMARST_FALL`
exactly on a falling edge of the latched analog-reset-done line, detected
by comparing it against its one-tick-delayed copy `pma_r`, which follows
the input with one tick of delay. -/
theorem rx_drp_read_modify_restore :
    (∀ s : RxSt, (rxComb s).drp_addr = 0x011) ∧
    (∀ s : RxSt, s.fsm = RxState.DRP_MOD_ISSUE →
      (rxComb s).drp_en = true ∧ (rxComb s).drp_we = true ∧
      (rxComb s).drp_di = s.drpvalue &&& 0xf7ff ∧
      Nat.testBit (rxComb s).drp_di 11 = false ∧
      (∀ j : Nat, j < 16 → j ≠ 11 →
        Nat.testBit (rxComb s).drp_di j = Nat.testBit s.drpvalue j)) ∧
    (∀ (s : RxSt) (i : RxIn), rxResetSelf i = false →
      s.fsm = RxState.DRP_READ_WAIT → i.drp_rdy = true →
      (rxStep s i).drpvalue = i.drp_do % 2 ^ 16 ∧
      (rxStep s i).fsm = RxState.DRP_MOD_ISSUE) ∧
    (∀ (s : RxSt) (i : RxIn), rxResetSelf i = false →
      ¬(s.fsm = RxState.DRP_READ_WAIT ∧ i.drp_rdy = true) →
      (rxStep s i).drpvalue = s.drpvalue) ∧
    (∀ s : RxSt, s.fsm = RxState.DRP_RESTORE_ISSUE →
      (rxComb s).drp_en = true ∧ (rxComb s).drp_we = true ∧
      (rxComb s).drp_di = s.drpvalue) ∧
    (∀ (s : RxSt) (i : RxIn), rxResetSelf i = false →
      s.fsm = RxState.WAIT_PMARST_FALL →
      ((rxStep s i).fsm = RxState.DRP_RESTORE_ISSUE ↔
        (s.pma_r = true ∧ i.rxpmaresetdone = false)) ∧
      (rxStep s i).pma_r = i.rxpmaresetdone) := by
  have hmask11 : ∀ v : Nat, Nat.testBit (v &&& 0xf7ff) 11 = false := by
    intro v
    rw [Nat.testBit_and, (by decide : Nat.testBit 0xf7ff 11 = false)]
    exact Bool.and_false _
  have hmaskj : ∀ j : Nat, j < 16 → j ≠ 11 →
      Nat.testBit (0xf7ff : Nat) j = true := by decide
  refine ⟨?_, ?_, ?_, ?_, ?_, ?_⟩
  · intro s
    cases h : s.fsm <;> simp [rxComb, h]
  · intro s h
    have hcomb : rxComb s
        = { gtrxreset := true, drpmask := true, drp_en := true,
            drp_we := true, drp_di := s.drpvalue &&& 0xf7ff } := by
      simp [rxComb, h]
    refine ⟨by rw [hcomb], by rw [hcomb], by rw [hcomb], ?_, ?_⟩
    · rw [hcomb]
      exact hmask11 s.drpvalue
    · intro j hj hj11
      rw [hcomb]
      show Nat.testBit (s.drpvalue &&& 0xf7ff) j = _
      rw [Nat.testBit_and, hmaskj j hj hj11, Bool.and_true]
  · intro s i _hres h hrdy
    constructor
    · show (if s.fsm = RxState.DRP_READ_WAIT ∧ i.drp_rdy then
        i.drp_do % 2 ^ 16 else s.drpvalue) = i.drp_do % 2 ^ 16
      rw [if_pos ⟨h, by rw [hrdy]⟩]
    · show rxFsmNext s i = RxState.DRP_MOD_ISSUE
      rw [rxFsmNext, h]
      simp [hrdy]
  · intro s i _hres hnl
    show (if s.fsm = RxState.DRP_READ_WAIT ∧ i.drp_rdy then
      i.drp_do % 2 ^ 16 else s.drpvalue) = s.drpvalue
    rw [if_neg]
    intro hc
    exact hnl ⟨hc.1, hc.2⟩
  · intro s h
    have hm : (s.fsm = RxState.DRP_MOD_ISSUE) = False := by
      simp [h]
    have hcomb : rxComb s
        = { rxuserrdy := true, drp_en := true, drp_we := true,
            drp_di := s.drpvalue } := by
      simp [rxComb, h, hm]
    exact ⟨by rw [hcomb], by rw [hcomb], by rw [hcomb]⟩
  · intro s i _hres h
    constructor
    · show (rxFsmNext s i = RxState.DRP_RESTORE_ISSUE) ↔ _
      cases h1 : s.pma_r <;> cases h2 : i.rxpmaresetdone <;>
        simp [rxFsmNext, h, h1, h2]
    · rfl

/-- A concrete Rx state in the modify phase with an all-ones read value,
used by witnesses. -/
def rxStModify : RxSt :=
  { fsm := RxState.DRP_MOD_ISSUE, drpvalue := 0xffff, pma_r := true }

/-- A concrete Rx state waiting for the DRP read reply, used by
witnesses. -/
def rxStRead : RxSt :=
  { fsm := RxState.DRP_READ_WAIT, drpvalue := 0, pma_r := true }

/-- A concrete Rx state waiting for the DRP modify reply, used by
witnesses. -/
def rxStModWait : RxSt :=
  { fsm := RxState.DRP_MOD_WAIT, drpvalue := 0xabcd, pma_r := true }

/-- A concrete Rx state in the restore phase, used by witnesses. -/
def rxStRestore : RxSt :=
  { fsm := RxState.DRP_RESTORE_ISSUE, drpvalue := 0xabcd, pma_r := false }

/-- A concrete Rx input with the DRP reply `rdy` pulsed and read data
`0xabcd`, used by witnesses. -/
def rxInReadRdy : RxIn :=
  { init_delay_done := true, drp_rdy := true, drp_do := 0xabcd,
    rxpmaresetdone := true, rxresetdone := false, restart := false,
    watchdog_done := false }

/-- A concrete quiet Rx input (no reply, no reset, analog-reset-done
low), used by witnesses. -/
def rxInQuiet : RxIn :=
  { init_delay_done := true, drp_rdy := false, drp_do := 0,
    rxpmaresetdone := false, rxresetdone := false, restart := false,
    watchdog_done := false }

/-- Closed witness for `rx_drp_read_modify_restore`, exercising each
conjunct at a concrete state: address `0x011` everywhere, the modify phase
writing `0xffff & 0xf7ff = 0xf7ff` (bit 11 of `0xffff` cleared, bits 0-10
and 12-15 kept), the read latch capturing `0xabcd`, preservation in
`DRP_MOD_WAIT`, the restore phase writing back its latched `0xabcd`
unmodified, and the falling-edge entry to the restore phase. -/
theorem rx_drp_read_modify_restore_witness :
    (rxComb rxStWaiting).drp_addr = 0x011 ∧
    (rxComb rxStModify).drp_di = (0xffff : Nat) &&& 0xf7ff ∧
    Nat.testBit (rxComb rxStModify).drp_di 11 = false ∧
    Nat.testBit (rxComb rxStModify).drp_di 10
      = Nat.testBit (0xffff : Nat) 10 ∧
    (rxStep rxStRead rxInReadRdy).drpvalue = 0xabcd % 2 ^ 16 ∧
    (rxStep rxStRead rxInReadRdy).fsm = RxState.DRP_MOD_ISSUE ∧
    (rxStep rxStModWait rxInQuiet).drpvalue = rxStModWait.drpvalue ∧
    (rxComb rxStRestore).drp_di = rxStRestore.drpvalue ∧
    ((rxStep rxStWaiting rxInQuiet).fsm = RxState.DRP_RESTORE_ISSUE ↔
      (rxStWaiting.pma_r = true ∧ rxInQuiet.rxpmaresetdone = false)) :=
  ⟨rx_drp_read_modify_restore.1 rxStWaiting,
   (rx_drp_read_modify_restore.2.1 rxStModify rfl).2.2.1,
   (rx_drp_read_modify_restore.2.1 rxStModify rfl).2.2.2.1,
   (rx_drp_read_modify_restore.2.1 rxStModify rfl).2.2.2.2 10
     (by decide) (by decide),
   (rx_drp_read_modify_restore.2.2.1 rxStRead rxInReadRdy rfl rfl rfl).1,
   (rx_drp_read_modify_restore.2.2.1 rxStRead rxInReadRdy rfl rfl rfl).2,
   rx_drp_read_modify_restore.2.2.2.1 rxStModWait rxInQuiet rfl
     (by decide),
   (rx_drp_read_modify_restore.2.2.2.2.1 rxStRestore rfl).2.2,
   (rx_drp_read_modify_restore.2.2.2.2.2 rxStWaiting rxInQuiet rfl rfl).1⟩

end Bucatini
